import Mathlib

/-!
Shallow embedding of the secure client bootstrap and connection-lifecycle
layer of the auth service: the Vault (secrets-store) client with its
option-based construction, TLS assembly and connect/stop lifecycle, and the
Redis (cache) service with its one-shot connect gate and idempotent stop.
Filesystem, network and the external redis client package are modelled as
explicit parameters, so that every definition is executable.
-/

namespace Spec2Proof

/-- Model of context.Context: whether the Done channel is closed, and the
value Err() reports in that case. -/
structure Ctx where
  doneClosed : Bool
  ctxErr : String
deriving Repr, DecidableEq

/-- Model of the filesystem seen by the process: the working directory
(none when it cannot be determined, the only failure mode of filepath.Abs)
and which absolute paths have an existing file. -/
structure FS where
  cwd : Option String
  fileExists : String → Bool

namespace Vault

/-- The fields of api.TLSConfig the source writes. -/
structure TLSConfig where
  Insecure : Bool
  CAPath : String
  ClientCert : String
  ClientKey : String
deriving Repr, DecidableEq

/-- The fields of api.Config the source touches: the endpoint address and
whether a custom TLS configuration has been attached via ConfigureTLS
(none means the ecosystem default transport, no TLS customization). -/
structure APIConfig where
  Address : String
  tls : Option TLSConfig
deriving Repr, DecidableEq

/-- Model of a constructed api.Client: the config it was built from and the
token attached with SetToken. -/
structure APIClient where
  config : APIConfig
  token : String
deriving Repr, DecidableEq

/-- Client - the Vault client descriptor (struct Client of
internal/storage/vault/service.go). -/
structure Client where
  client : Option APIClient
  address : String
  token : String
  insecureSkipTLS : Bool
  caPath : String
  clientCertPath : String
  clientKeyPath : String
deriving Repr, DecidableEq

/-- ClientOption - an option configuring the client (func(*Client)). -/
def ClientOption := Client → Client

/-- WithAddress sets the Vault address. -/
def WithAddress (address : String) : ClientOption :=
  fun vc => { vc with address := address }

/-- WithToken sets the Vault token. -/
def WithToken (token : String) : ClientOption :=
  fun vc => { vc with token := token }

/-- WithInsecureSkipTLS sets the flag skipping TLS certificate checks. -/
def WithInsecureSkipTLS (insecure : Bool) : ClientOption :=
  fun vc => { vc with insecureSkipTLS := insecure }

/-- WithTLSConfig sets the paths to the TLS certificates. -/
def WithTLSConfig (caPath clientCertPath clientKeyPath : String) : ClientOption :=
  fun vc => { vc with caPath := caPath, clientCertPath := clientCertPath,
                      clientKeyPath := clientKeyPath }

/-- The zero-valued &Client\x7b\x7d that NewClient starts from. -/
def zeroClient : Client :=
  { client := none, address := "", token := "", insecureSkipTLS := false,
    caPath := "", clientCertPath := "", clientKeyPath := "" }

/-- Application of the option list to the zero-valued descriptor (the for
loop at the top of NewClient). -/
def applyOpts (opts : List ClientOption) : Client :=
  opts.foldl (fun vc opt => opt vc) zeroClient

/-- NewClient creates a new Vault client: applies the options, then runs the
four validation checks in source order (address, token, CA requirement when
TLS is not skipped, cert/key pairing), returning the first failing check's
error. The CA check is written nested in the source
(if !insecureSkipTLS \x7b if caPath == "" \x7b ... \x7d \x7d); it is
flattened here to the equivalent conjunction. -/
def NewClient (opts : List ClientOption) : Except String Client :=
  let vaultClient := applyOpts opts
  if vaultClient.address = "" then
    .error "address is required"
  else if vaultClient.token = "" then
    .error "token is required"
  else if vaultClient.insecureSkipTLS = false ∧ vaultClient.caPath = "" then
    .error "CA certificate is required"
  else if (vaultClient.clientCertPath ≠ "" ∧ vaultClient.clientKeyPath = "") ∨
          (vaultClient.clientCertPath = "" ∧ vaultClient.clientKeyPath ≠ "") then
    .error "client certificate and key must be provided together"
  else
    .ok vaultClient

/-- filepath.IsAbs on a Unix host: the path begins with the separator. -/
def filepathIsAbs (path : String) : Bool :=
  match path.data with
  | [] => false
  | c :: _ => c = '/'

/-- validateAndResolvePath resolves the path with filepath.Abs against the
process working directory (an already-absolute path is kept as given, a
relative one is joined to the directory; lexical cleaning is elided, and the
only failure of Abs is an undeterminable working directory), then stats the
resolved path and fails when no file exists there. -/
def validateAndResolvePath (fs : FS) (path fileType : String) : Except String String :=
  let absResult : Except String String :=
    if filepathIsAbs path then .ok path
    else match fs.cwd with
      | some dir => .ok (dir ++ "/" ++ path)
      | none => .error "getwd: no such file or directory"
  match absResult with
  | .error e => .error ("vault: error resolving " ++ fileType ++ " path: " ++ e)
  | .ok absPath =>
    if fs.fileExists absPath = false then
      .error ("vault: " ++ fileType ++ " file not found: " ++ absPath)
    else
      .ok absPath

/-- configureCA attaches the CA certificate to the TLS configuration: a no-op
when caPath is empty, otherwise resolves and validates the path and stores
the resolved absolute path in CAPath. -/
def Client.configureCA (vc : Client) (fs : FS) (tlsConfig : TLSConfig) :
    Except String TLSConfig :=
  if vc.caPath = "" then .ok tlsConfig
  else match validateAndResolvePath fs vc.caPath "CA certificate" with
    | .error e => .error e
    | .ok caPath => .ok { tlsConfig with CAPath := caPath }

/-- configureClientCertificates attaches the client certificate and key: a
no-op when both paths are empty, an error when exactly one is set, otherwise
resolves and validates both and stores the resolved absolute paths. -/
def Client.configureClientCertificates (vc : Client) (fs : FS) (tlsConfig : TLSConfig) :
    Except String TLSConfig :=
  let hasCert : Bool := vc.clientCertPath != ""
  let hasKey : Bool := vc.clientKeyPath != ""
  if !hasCert && !hasKey then .ok tlsConfig
  else if hasCert != hasKey then
    .error "vault: client certificate and key must be provided together"
  else match validateAndResolvePath fs vc.clientCertPath "client certificate" with
    | .error e => .error e
    | .ok clientCertPath =>
      match validateAndResolvePath fs vc.clientKeyPath "client key" with
      | .error e => .error e
      | .ok clientKeyPath =>
        .ok { tlsConfig with ClientCert := clientCertPath, ClientKey := clientKeyPath }

/-- shouldConfigureTLS reports whether TLS needs configuring. -/
def Client.shouldConfigureTLS (vc : Client) : Bool :=
  vc.insecureSkipTLS || vc.caPath != "" || (vc.clientCertPath != "" && vc.clientKeyPath != "")

/-- configureTLS builds the TLS configuration (Insecure from the flag, then
CA, then client certificates), and applies it to the outgoing api.Config via
ConfigureTLS only when shouldConfigureTLS holds; otherwise the config is
returned untouched. ConfigureTLS itself is modelled as attaching the built
TLS configuration. -/
def Client.configureTLS (vc : Client) (fs : FS) (config : APIConfig) :
    Except String APIConfig :=
  let tlsConfig : TLSConfig :=
    { Insecure := vc.insecureSkipTLS, CAPath := "", ClientCert := "", ClientKey := "" }
  match vc.configureCA fs tlsConfig with
  | .error e => .error e
  | .ok tlsConfig =>
    match vc.configureClientCertificates fs tlsConfig with
    | .error e => .error e
    | .ok tlsConfig =>
      if vc.shouldConfigureTLS = false then .ok config
      else .ok { config with tls := some tlsConfig }

/-- createAPIClient builds the api.Config (default config with the address
set), applies the TLS assembly, constructs the api.Client and attaches the
token with SetToken. The api.NewClient call itself is modelled as the
infallible packaging of the config. -/
def Client.createAPIClient (vc : Client) (fs : FS) : Except String APIClient :=
  let config : APIConfig := { Address := vc.address, tls := none }
  match vc.configureTLS fs config with
  | .error e => .error e
  | .ok config => .ok { config := config, token := vc.token }

/-- verifyConnection issues the Health call (the network is the health
parameter, returning an underlying error message or nothing) and wraps a
failure with the target address. -/
def Client.verifyConnection (vc : Client) (health : APIClient → Option String)
    (client : APIClient) : Option String :=
  match health client with
  | some e => some ("vault: failed to connect to vault at " ++ vc.address ++ ": " ++ e)
  | none => none

/-- Connect builds the API client, verifies the connection via the Health
endpoint, and only then stores the handle on the descriptor; the pair is
(returned error, descriptor state after the call). -/
def Client.Connect (vc : Client) (fs : FS) (health : APIClient → Option String) :
    Option String × Client :=
  match vc.createAPIClient fs with
  | .error e => (some e, vc)
  | .ok client =>
    match vc.verifyConnection health client with
    | some e => (some e, vc)
    | none => (none, { vc with client := some client })

/-- Stop releases the client handle: a no-op when no handle is held;
otherwise the handle is set to nil and, after the release, an
already-cancelled context makes Stop return the context's error. -/
def Client.Stop (vc : Client) (ctx : Ctx) : Option String × Client :=
  match vc.client with
  | none => (none, vc)
  | some _ =>
    let vc := { vc with client := none }
    if ctx.doneClosed then (some ctx.ctxErr, vc)
    else (none, vc)

end Vault

namespace Redis

/-- config.Redis - the fields the cache service reads (the discriminator and
the connection coordinates of the two variants). -/
structure Config where
  type : String
  host : String
  port : Nat
  addrs : List String
deriving Repr, DecidableEq

/-- RedisTypeSingle - a single node. -/
def RedisTypeSingle : String := "single"

/-- RedisTypeCluster - a cluster. -/
def RedisTypeCluster : String := "cluster"

/-- An underlying redis client handle (single-node or cluster variant),
abstract: the concrete clients live outside the given sources. -/
structure RClient where
  id : Nat
deriving Repr, DecidableEq

/-- The external redis client package and the network, supplied as an
environment: NewSingleClient and NewClusterClient construction, and the
concrete client's Connect and Close network calls. -/
structure Env where
  newSingleClient : Config → Except String RClient
  newClusterClient : Config → Except String RClient
  clientConnect : RClient → Ctx → Option String
  clientClose : RClient → Ctx → Option String

/-- Service - the cache service: the config, the nullable client handle, the
sync.Once state (whether Do has already run) and the recorded error. -/
structure Service where
  cfg : Config
  client : Option RClient
  onceDone : Bool
  err : Option String
deriving DecidableEq

/-- New creates the Service; the applied options are summarized by the
resulting cfg field (none when no WithCfg option was given), and a nil cfg
fails with "cfg is required". -/
def New (cfg : Option Config) : Except String Service :=
  match cfg with
  | none => .error "cfg is required"
  | some c => .ok { cfg := c, client := none, onceDone := false, err := none }

/-- The tail of the once.Do body after a client was selected and built:
invoke its Connect, record a wrapped error on failure, store the handle on
success. -/
def Service.afterSelect (s : Service) (env : Env) (ctx : Ctx) (client : RClient) : Service :=
  match env.clientConnect client ctx with
  | some e => { s with err := some ("error connecting to redis: " ++ e) }
  | none => { s with err := none, client := some client }

/-- The once.Do body of Connect: select the concrete client by cfg.type,
wrapping construction errors with the variant name, failing with the
unknown-type error on any other discriminator. -/
def Service.connectBody (s : Service) (env : Env) (ctx : Ctx) : Service :=
  if s.cfg.type = RedisTypeSingle then
    match env.newSingleClient s.cfg with
    | .error e => { s with err := some ("error creating redis client (single): " ++ e) }
    | .ok client => s.afterSelect env ctx client
  else if s.cfg.type = RedisTypeCluster then
    match env.newClusterClient s.cfg with
    | .error e => { s with err := some ("error creating redis client (cluster): " ++ e) }
    | .ok client => s.afterSelect env ctx client
  else
    { s with err := some ("unknown redis type: " ++ s.cfg.type) }

/-- Connect runs the body under the one-shot gate: only when the gate has
not fired does the body run (and the gate fires); the recorded error is
returned either way, with the state after the call. -/
def Service.Connect (s : Service) (env : Env) (ctx : Ctx) : Option String × Service :=
  if s.onceDone then (s.err, s)
  else
    let s' := { s.connectBody env ctx with onceDone := true }
    (s'.err, s')

/-- Stop closes the connection: no error when no client handle is present,
otherwise the concrete client's Close result verbatim. -/
def Service.Stop (s : Service) (env : Env) (ctx : Ctx) : Option String :=
  match s.client with
  | none => none
  | some client => env.clientClose client ctx

end Redis

end Spec2Proof

namespace Spec2Proof

/-- C1: for every option list, an empty resulting address fails with
"address is required"; a non-empty address with an empty token fails with
"token is required"; the CA check and the cert/key pairing check run only
after those, in order 1→2→3→4, and the first failing check determines the
returned error. -/
theorem newClient_check_order (opts : List Vault.ClientOption) :
    ((Vault.applyOpts opts).address = "" →
      Vault.NewClient opts = .error "address is required")
    ∧ ((Vault.applyOpts opts).address ≠ "" → (Vault.applyOpts opts).token = "" →
      Vault.NewClient opts = .error "token is required")
    ∧ ((Vault.applyOpts opts).address ≠ "" → (Vault.applyOpts opts).token ≠ "" →
      (Vault.applyOpts opts).insecureSkipTLS = false → (Vault.applyOpts opts).caPath = "" →
      Vault.NewClient opts = .error "CA certificate is required")
    ∧ ((Vault.applyOpts opts).address ≠ "" → (Vault.applyOpts opts).token ≠ "" →
      ((Vault.applyOpts opts).insecureSkipTLS = true ∨ (Vault.applyOpts opts).caPath ≠ "") →
      (((Vault.applyOpts opts).clientCertPath ≠ "" ∧ (Vault.applyOpts opts).clientKeyPath = "") ∨
       ((Vault.applyOpts opts).clientCertPath = "" ∧ (Vault.applyOpts opts).clientKeyPath ≠ "")) →
      Vault.NewClient opts = .error "client certificate and key must be provided together")
    := by
  refine ⟨?_, ?_, ?_, ?_⟩
  · intro h
    simp [Vault.NewClient, h]
  · intro h1 h2
    simp [Vault.NewClient, h1, h2]
  · intro h1 h2 h3 h4
    simp [Vault.NewClient, h1, h2, h3, h4]
  · intro h1 h2 h3 h4
    have hca : ¬((Vault.applyOpts opts).insecureSkipTLS = false ∧
        (Vault.applyOpts opts).caPath = "") := by
      rcases h3 with h3 | h3
      · intro hc
        rw [h3] at hc
        exact absurd hc.1 (by simp)
      · intro hc
        exact h3 hc.2
    simp only [Vault.NewClient]
    rw [if_neg h1, if_neg h2, if_neg hca, if_pos h4]

/-- Witness for C1 at a concrete option list missing the address. -/
theorem newClient_check_order_witness :
    Vault.NewClient [Vault.WithToken "vault-token"] = .error "address is required" :=
  (newClient_check_order [Vault.WithToken "vault-token"]).1 rfl

/-- C2: with a non-empty address and token, passing the CA check,
construction fails with the pairing error iff exactly one of
clientCertPath and clientKeyPath is non-empty; when both are empty or
both non-empty, construction succeeds with the populated descriptor. -/
theorem newClient_cert_key_pairing (opts : List Vault.ClientOption)
    (h1 : (Vault.applyOpts opts).address ≠ "")
    (h2 : (Vault.applyOpts opts).token ≠ "")
    (h3 : (Vault.applyOpts opts).insecureSkipTLS = true ∨ (Vault.applyOpts opts).caPath ≠ "") :
    (Vault.NewClient opts = .error "client certificate and key must be provided together" ↔
      (((Vault.applyOpts opts).clientCertPath ≠ "" ∧ (Vault.applyOpts opts).clientKeyPath = "") ∨
       ((Vault.applyOpts opts).clientCertPath = "" ∧ (Vault.applyOpts opts).clientKeyPath ≠ "")))
    ∧ ((((Vault.applyOpts opts).clientCertPath = "" ∧ (Vault.applyOpts opts).clientKeyPath = "") ∨
        ((Vault.applyOpts opts).clientCertPath ≠ "" ∧ (Vault.applyOpts opts).clientKeyPath ≠ "")) →
      Vault.NewClient opts = .ok (Vault.applyOpts opts)) := by
  have hca : ¬((Vault.applyOpts opts).insecureSkipTLS = false ∧
      (Vault.applyOpts opts).caPath = "") := by
    rcases h3 with h3 | h3
    · intro hc
      rw [h3] at hc
      exact absurd hc.1 (by simp)
    · intro hc
      exact h3 hc.2
  constructor
  · constructor
    · intro heq
      by_contra hone
      have : Vault.NewClient opts = .ok (Vault.applyOpts opts) := by
        simp only [Vault.NewClient]
        rw [if_neg h1, if_neg h2, if_neg hca, if_neg hone]
      rw [heq] at this
      exact Except.noConfusion this
    · intro hone
      exact (newClient_check_order opts).2.2.2 h1 h2 h3 hone
  · intro hboth
    have hone : ¬(((Vault.applyOpts opts).clientCertPath ≠ "" ∧
          (Vault.applyOpts opts).clientKeyPath = "") ∨
        ((Vault.applyOpts opts).clientCertPath = "" ∧
          (Vault.applyOpts opts).clientKeyPath ≠ "")) := by
      rcases hboth with ⟨hc, hk⟩ | ⟨hc, hk⟩
      · rintro (⟨hc', _⟩ | ⟨_, hk'⟩)
        · exact hc' hc
        · exact hk' hk
      · rintro (⟨_, hk'⟩ | ⟨hc', _⟩)
        · exact hk hk'
        · exact hc hc'
    simp only [Vault.NewClient]
    rw [if_neg h1, if_neg h2, if_neg hca, if_neg hone]

/-- Witness for C2: a cert without a key next to a valid address, token and
CA path yields the pairing error. -/
theorem newClient_cert_key_pairing_witness :
    Vault.NewClient [Vault.WithAddress "https://localhost:8200", Vault.WithToken "vault-token",
        Vault.WithTLSConfig "/path/to/ca.pem" "/path/to/cert.pem" ""] =
      .error "client certificate and key must be provided together" :=
  ((newClient_cert_key_pairing
      [Vault.WithAddress "https://localhost:8200", Vault.WithToken "vault-token",
        Vault.WithTLSConfig "/path/to/ca.pem" "/path/to/cert.pem" ""]
      (by decide) (by decide) (Or.inr (by decide))).1).mpr (Or.inl (by decide))

/-- Counterexample for C3: with insecureSkipTLS false, an empty caPath and a
full client cert/key pair, NewClient does not succeed: it fails with
"CA certificate is required" (the cert pair does not waive the CA check). -/
theorem newClient_no_ca_waiver_counterexample :
    Vault.NewClient [Vault.WithAddress "https://localhost:8200", Vault.WithToken "vault-token",
        Vault.WithTLSConfig "" "/path/to/cert.pem" "/path/to/key.pem"] =
      .error "CA certificate is required"
    ∧ ¬∃ c, Vault.NewClient [Vault.WithAddress "https://localhost:8200",
        Vault.WithToken "vault-token",
        Vault.WithTLSConfig "" "/path/to/cert.pem" "/path/to/key.pem"] = .ok c :=
  ⟨rfl, fun ⟨_, hc⟩ => Except.noConfusion hc⟩

/-- C3 amended: with non-empty address and token, insecureSkipTLS false and
an empty caPath, NewClient fails with "CA certificate is required" even when
both clientCertPath and clientKeyPath are non-empty; the CA requirement is
never waived by a client certificate pair. -/
theorem newClient_ca_always_required (opts : List Vault.ClientOption)
    (h1 : (Vault.applyOpts opts).address ≠ "")
    (h2 : (Vault.applyOpts opts).token ≠ "")
    (h3 : (Vault.applyOpts opts).insecureSkipTLS = false)
    (h4 : (Vault.applyOpts opts).caPath = "") :
    Vault.NewClient opts = .error "CA certificate is required" :=
  (newClient_check_order opts).2.2.1 h1 h2 h3 h4

/-- Witness for the amended C3 at the counterexample's configuration. -/
theorem newClient_ca_always_required_witness :
    Vault.NewClient [Vault.WithAddress "https://localhost:8200", Vault.WithToken "vault-token",
        Vault.WithTLSConfig "" "/path/to/cert.pem" "/path/to/key.pem"] =
      .error "CA certificate is required" :=
  newClient_ca_always_required
    [Vault.WithAddress "https://localhost:8200", Vault.WithToken "vault-token",
      Vault.WithTLSConfig "" "/path/to/cert.pem" "/path/to/key.pem"]
    (by decide) (by decide) rfl rfl

/-- The boolean shouldConfigureTLS spelled out as a disjunction. -/
theorem shouldConfigureTLS_iff (vc : Vault.Client) :
    vc.shouldConfigureTLS = true ↔
      (vc.insecureSkipTLS = true ∨ vc.caPath ≠ "" ∨
        (vc.clientCertPath ≠ "" ∧ vc.clientKeyPath ≠ "")) := by
  simp [Vault.Client.shouldConfigureTLS, bne_iff_ne, or_assoc]

/-- C5: whenever configureTLS returns without error on a config not yet
carrying TLS customization, a custom TLS configuration is attached iff
insecureSkipTLS is set, or caPath is non-empty, or both client cert paths
are non-empty; in every other case the config is returned untouched. -/
theorem configureTLS_custom_iff (vc : Vault.Client) (fs : FS) (config out : Vault.APIConfig)
    (hin : config.tls = none) (h : vc.configureTLS fs config = .ok out) :
    (out.tls ≠ none ↔
      (vc.insecureSkipTLS = true ∨ vc.caPath ≠ "" ∨
        (vc.clientCertPath ≠ "" ∧ vc.clientKeyPath ≠ "")))
    ∧ (¬(vc.insecureSkipTLS = true ∨ vc.caPath ≠ "" ∨
        (vc.clientCertPath ≠ "" ∧ vc.clientKeyPath ≠ "")) → out = config) := by
  simp only [Vault.Client.configureTLS] at h
  split at h
  · exact Except.noConfusion h
  · split at h
    · exact Except.noConfusion h
    · split at h
      · rename_i hs
        rw [Except.ok.injEq] at h
        subst h
        constructor
        · rw [hin]
          simp only [ne_eq, not_true_eq_false, false_iff]
          rw [← shouldConfigureTLS_iff]
          simp [hs]
        · intro _
          rfl
      · rename_i hs
        rw [Except.ok.injEq] at h
        subst h
        constructor
        · simp only [ne_eq, Option.some_ne_none, not_false_eq_true, true_iff]
          rw [← shouldConfigureTLS_iff]
          simpa using hs
        · intro hr
          rw [← shouldConfigureTLS_iff] at hr
          simp at hr
          exact absurd hr hs

/-- Witness for C5: with insecureSkipTLS set and no paths, configureTLS
attaches a custom TLS configuration. -/
theorem configureTLS_custom_iff_witness :
    ((Vault.APIConfig.mk "https://localhost:8200" (some (Vault.TLSConfig.mk true "" "" ""))).tls ≠
        none ↔
      ((Vault.Client.mk none "https://localhost:8200" "vault-token" true "" "" "").insecureSkipTLS =
          true ∨
        (Vault.Client.mk none "https://localhost:8200" "vault-token" true "" "" "").caPath ≠ "" ∨
        ((Vault.Client.mk none "https://localhost:8200" "vault-token" true "" "" "").clientCertPath ≠
            "" ∧
          (Vault.Client.mk none "https://localhost:8200" "vault-token" true "" "" "").clientKeyPath ≠
            ""))) :=
  (configureTLS_custom_iff
    (Vault.Client.mk none "https://localhost:8200" "vault-token" true "" "" "")
    ⟨some "/", fun _ => false⟩
    (Vault.APIConfig.mk "https://localhost:8200" none)
    (Vault.APIConfig.mk "https://localhost:8200" (some (Vault.TLSConfig.mk true "" "" "")))
    rfl rfl).1

/-- C6: on a client holding a live handle and a context already cancelled,
Stop returns the context's error and the post state holds no handle: the
release happens even though the error is returned. -/
theorem vault_stop_cancelled (vc : Vault.Client) (ctx : Ctx)
    (h1 : vc.client ≠ none) (h2 : ctx.doneClosed = true) :
    (vc.Stop ctx).1 = some ctx.ctxErr ∧ ((vc.Stop ctx).2).client = none := by
  rcases hcl : vc.client with _ | cl
  · exact absurd hcl h1
  · simp [Vault.Client.Stop, hcl, h2]

/-- Witness for C6 at a concrete connected client and a cancelled context. -/
theorem vault_stop_cancelled_witness :
    ((Vault.Client.mk (some (Vault.APIClient.mk (Vault.APIConfig.mk "https://localhost:8200" none)
          "vault-token")) "https://localhost:8200" "vault-token" true "" "" "").Stop
        (Ctx.mk true "context canceled")).1 = some "context canceled" ∧
      (((Vault.Client.mk (some (Vault.APIClient.mk
          (Vault.APIConfig.mk "https://localhost:8200" none)
          "vault-token")) "https://localhost:8200" "vault-token" true "" "" "").Stop
        (Ctx.mk true "context canceled")).2).client = none :=
  vault_stop_cancelled
    (Vault.Client.mk (some (Vault.APIClient.mk (Vault.APIConfig.mk "https://localhost:8200" none)
      "vault-token")) "https://localhost:8200" "vault-token" true "" "" "")
    (Ctx.mk true "context canceled") (by simp) rfl

/-- C9: with a determinable working directory, validateAndResolvePath
returns the absolute resolution of the path against it when a file exists
there, and fails with an error naming the artifact kind and the resolved
absolute path otherwise; the CA and client cert/key configuration steps
store the resolved absolute paths, not the originals. -/
theorem validateAndResolvePath_spec (fs : FS) (dir path fileType : String)
    (hcwd : fs.cwd = some dir) :
    (fs.fileExists (if Vault.filepathIsAbs path then path else dir ++ "/" ++ path) = true →
      Vault.validateAndResolvePath fs path fileType =
        .ok (if Vault.filepathIsAbs path then path else dir ++ "/" ++ path))
    ∧ (fs.fileExists (if Vault.filepathIsAbs path then path else dir ++ "/" ++ path) = false →
      Vault.validateAndResolvePath fs path fileType =
        .error ("vault: " ++ fileType ++ " file not found: " ++
          (if Vault.filepathIsAbs path then path else dir ++ "/" ++ path)))
    ∧ (∀ vc t t', Vault.Client.configureCA vc fs t = .ok t' → vc.caPath ≠ "" →
        Vault.validateAndResolvePath fs vc.caPath "CA certificate" = .ok t'.CAPath)
    ∧ (∀ vc t t', Vault.Client.configureClientCertificates vc fs t = .ok t' →
        vc.clientCertPath ≠ "" →
        Vault.validateAndResolvePath fs vc.clientCertPath "client certificate" =
          .ok t'.ClientCert ∧
        Vault.validateAndResolvePath fs vc.clientKeyPath "client key" = .ok t'.ClientKey) := by
  refine ⟨?_, ?_, ?_, ?_⟩
  · intro hex
    by_cases hs : Vault.filepathIsAbs path
    · rw [if_pos hs] at hex
      simp [Vault.validateAndResolvePath, hs, hex]
    · rw [if_neg hs] at hex
      simp [Vault.validateAndResolvePath, hs, hcwd, hex]
  · intro hex
    by_cases hs : Vault.filepathIsAbs path
    · rw [if_pos hs] at hex
      simp [Vault.validateAndResolvePath, hs, hex]
    · rw [if_neg hs] at hex
      simp [Vault.validateAndResolvePath, hs, hcwd, hex]
  · intro vc t t' h hne
    simp only [Vault.Client.configureCA] at h
    rw [if_neg hne] at h
    split at h
    · exact Except.noConfusion h
    · rename_i caPath heq
      rw [Except.ok.injEq] at h
      subst h
      exact heq
  · intro vc t t' h hne
    simp only [Vault.Client.configureClientCertificates] at h
    split at h
    · rename_i hcond
      simp [bne_eq_false_iff_eq] at hcond
      exact absurd hcond.1 hne
    · split at h
      · exact Except.noConfusion h
      · split at h
        · exact Except.noConfusion h
        · rename_i clientCertPath heqc
          split at h
          · exact Except.noConfusion h
          · rename_i clientKeyPath heqk
            rw [Except.ok.injEq] at h
            subst h
            exact ⟨heqc, heqk⟩

/-- Witness for C9: a relative path resolved against the working directory
to an existing file. -/
theorem validateAndResolvePath_spec_witness :
    Vault.validateAndResolvePath
        (FS.mk (some "/work") (fun p => p == "/work/ca.pem")) "ca.pem" "CA certificate" =
      .ok (if Vault.filepathIsAbs "ca.pem" then "ca.pem" else "/work" ++ "/" ++ "ca.pem") :=
  (validateAndResolvePath_spec (FS.mk (some "/work") (fun p => p == "/work/ca.pem"))
    "/work" "ca.pem" "CA certificate" rfl).1 (by decide)

/-- C10: whenever the Vault Connect returns an error (construction, TLS
assembly or the health check fails), the descriptor — in particular the
stored client handle — is left exactly as before the call; the handle is
assigned only when the health check succeeds. -/
theorem vault_connect_error_preserves_handle (vc : Vault.Client) (fs : FS)
    (health : Vault.APIClient → Option String) :
    (∀ e, (vc.Connect fs health).1 = some e → (vc.Connect fs health).2 = vc)
    ∧ ((vc.Connect fs health).1 = none →
      ∃ client, vc.createAPIClient fs = .ok client ∧
        vc.verifyConnection health client = none ∧
        (vc.Connect fs health).2 = { vc with client := some client }) := by
  rcases hc : vc.createAPIClient fs with e' | client
  · constructor
    · intro e _
      simp [Vault.Client.Connect, hc]
    · intro h
      simp [Vault.Client.Connect, hc] at h
  · rcases hv : vc.verifyConnection health client with _ | e'
    · constructor
      · intro e h
        simp [Vault.Client.Connect, hc, hv] at h
      · intro _
        exact ⟨client, rfl, hv, by simp [Vault.Client.Connect, hc, hv]⟩
    · constructor
      · intro e _
        simp [Vault.Client.Connect, hc, hv]
      · intro h
        simp [Vault.Client.Connect, hc, hv] at h

/-- Witness for C10: a failing health check leaves the descriptor exactly as
it was. -/
theorem vault_connect_error_preserves_handle_witness :
    ((Vault.Client.mk none "https://localhost:8200" "vault-token" true "" "" "").Connect
        (FS.mk (some "/") (fun _ => false)) (fun _ => some "connection refused")).2 =
      Vault.Client.mk none "https://localhost:8200" "vault-token" true "" "" "" :=
  (vault_connect_error_preserves_handle
      (Vault.Client.mk none "https://localhost:8200" "vault-token" true "" "" "")
      (FS.mk (some "/") (fun _ => false)) (fun _ => some "connection refused")).1
    "vault: failed to connect to vault at https://localhost:8200: connection refused" rfl

/-- C4: the one-shot gate of the cache service: after any Connect call,
every later Connect — under any environment and any context, so without
constructing a client or invoking the underlying Connect again — returns
the same recorded result and leaves the state unchanged; in particular a
failed first connect is permanent for the life of the instance. -/
theorem redis_connect_one_shot (s : Redis.Service) (env1 env2 : Redis.Env) (ctx1 ctx2 : Ctx) :
    Redis.Service.Connect (Redis.Service.Connect s env1 ctx1).2 env2 ctx2 =
      Redis.Service.Connect s env1 ctx1 := by
  by_cases h : s.onceDone
  · simp [Redis.Service.Connect, h]
  · simp [Redis.Service.Connect, h]

/-- C7: a discriminator that is neither single nor cluster makes Connect
fail with the unknown-type error carrying the literal type value, and the
client handle stays nil. -/
theorem redis_connect_unknown_type (s : Redis.Service) (env : Redis.Env) (ctx : Ctx)
    (h0 : s.onceDone = false) (hc : s.client = none)
    (h1 : s.cfg.type ≠ Redis.RedisTypeSingle) (h2 : s.cfg.type ≠ Redis.RedisTypeCluster) :
    (s.Connect env ctx).1 = some ("unknown redis type: " ++ s.cfg.type)
    ∧ (s.Connect env ctx).2.client = none := by
  simp [Redis.Service.Connect, h0, Redis.Service.connectBody, h1, h2, hc]

/-- Witness for C7 at a concrete unknown discriminator. -/
theorem redis_connect_unknown_type_witness :
    ((Redis.Service.mk (Redis.Config.mk "sentinel" "localhost" 6379 []) none false none).Connect
        (Redis.Env.mk (fun _ => .error "nope") (fun _ => .error "nope") (fun _ _ => none)
          (fun _ _ => none)) (Ctx.mk false "")).1 =
      some ("unknown redis type: " ++ "sentinel") ∧
    ((Redis.Service.mk (Redis.Config.mk "sentinel" "localhost" 6379 []) none false none).Connect
        (Redis.Env.mk (fun _ => .error "nope") (fun _ => .error "nope") (fun _ _ => none)
          (fun _ _ => none)) (Ctx.mk false "")).2.client = none :=
  redis_connect_unknown_type
    (Redis.Service.mk (Redis.Config.mk "sentinel" "localhost" 6379 []) none false none)
    (Redis.Env.mk (fun _ => .error "nope") (fun _ => .error "nope") (fun _ _ => none)
      (fun _ _ => none)) (Ctx.mk false "") rfl rfl (by decide) (by decide)

/-- C8: Stop of the cache service returns nil when no client handle is
present, and with a handle present returns exactly the concrete client's
Close result, unwrapped. -/
theorem redis_stop_delegates (s : Redis.Service) (env : Redis.Env) (ctx : Ctx) :
    (s.client = none → s.Stop env ctx = none)
    ∧ (∀ c, s.client = some c → s.Stop env ctx = env.clientClose c ctx) := by
  constructor
  · intro h
    simp [Redis.Service.Stop, h]
  · intro c h
    simp [Redis.Service.Stop, h]

/-- Witness for C8: Stop on a never-connected service returns nil. -/
theorem redis_stop_delegates_witness :
    Redis.Service.Stop
        (Redis.Service.mk (Redis.Config.mk "single" "localhost" 6379 []) none false none)
        (Redis.Env.mk (fun _ => .error "nope") (fun _ => .error "nope") (fun _ _ => none)
          (fun _ _ => some "close failed")) (Ctx.mk false "") = none :=
  (redis_stop_delegates
    (Redis.Service.mk (Redis.Config.mk "single" "localhost" 6379 []) none false none)
    (Redis.Env.mk (fun _ => .error "nope") (fun _ => .error "nope") (fun _ _ => none)
      (fun _ _ => some "close failed")) (Ctx.mk false "")).1 rfl

end Spec2Proof
